import Mathlib

/-!
Verification development for the proxy-aware HTTP dispatcher in
`src/util/Axios.ts` (class `AxiosClient`).

The TypeScript source is shallowly embedded here:
* the `AccountProxy` descriptor becomes a Lean structure,
* the WHATWG-`URL`-based normalization in `getAgentForProxy` becomes a
  structured URL record with an executable parser/serializer modelling the
  `scheme://`-form URLs that the normalization step always produces,
* agent allocation (`new HttpProxyAgent(...)` etc.) is modelled with an
  explicit fresh-instance counter so that object identity of agents is
  observable,
* the underlying axios transport is an explicit oracle
  (instance configuration, request configuration, attempt index) ↦ outcome,
  so `request`'s dispatch/fallback logic is a pure function over it.
-/

/-- Modelled from the spec: the `AccountProxy` interface
(`src/interface/Account`) is not among the provided sources.  Per the spec's
data model a proxy descriptor carries a host-or-url string, an optional
integer port, optional username/password and a proxy-enabled flag (named
`proxyAxios` in the source).  Optional/possibly-`undefined` fields are
`Option`s; `none` models JS `undefined`. -/
structure AccountProxy where
  url : Option String
  port : Option Nat
  username : Option String
  password : Option String
  proxyAxios : Bool
deriving DecidableEq

/-- JS truthiness of an optional string: `undefined` and the empty string are
falsy, every other string is truthy. -/
def jsTruthyStr (o : Option String) : Bool :=
  match o with
  | none => false
  | some s => !(s == "")

/-- The structured result of `new URL(...)` as used by `getAgentForProxy`:
`protocol` keeps its trailing colon exactly as the WHATWG `protocol` getter
does. -/
structure ParsedURL where
  protocol : String
  username : String
  password : String
  hostname : String
  port : String
  path : String
deriving DecidableEq

/-- Lower-case a string character-wise (ASCII, as `Char.toLower`). -/
def lowerStr (s : String) : String :=
  String.mk (s.data.map Char.toLower)

/-- Does the pattern list lead (occur at the very front of) the other list? -/
def listLeads : List Char → List Char → Bool
  | [], _ => true
  | _ :: _, [] => false
  | p :: ps, c :: cs => p == c && listLeads ps cs

/-- Is the pattern a contiguous sublist of the haystack? -/
def containsSub (pat : List Char) : List Char → Bool
  | [] => pat.isEmpty
  | c :: rest => listLeads pat (c :: rest) || containsSub pat rest

/-- Split a list at the first occurrence of a character, dropping it. -/
def splitFirstOn (ch : Char) : List Char → Option (List Char × List Char)
  | [] => none
  | c :: t =>
    if c == ch then some ([], t)
    else
      match splitFirstOn ch t with
      | some (a, b) => some (c :: a, b)
      | none => none

/-- Split a list at the last occurrence of a character, dropping it. -/
def splitLastOn (ch : Char) (l : List Char) : Option (List Char × List Char) :=
  match splitFirstOn ch l.reverse with
  | some (a, b) => some (b.reverse, a.reverse)
  | none => none

/-- Value of a hexadecimal digit, if the character is one. -/
def hexVal (c : Char) : Option Nat :=
  if c.isDigit then some (c.toNat - 48)
  else if 65 ≤ c.toNat ∧ c.toNat ≤ 70 then some (c.toNat - 55)
  else if 97 ≤ c.toNat ∧ c.toNat ≤ 102 then some (c.toNat - 87)
  else none

/-- Percent-decoding of a character list (as applied to the userinfo
components of a parsed URL); malformed escapes are kept verbatim. -/
def decodePct : List Char → List Char
  | [] => []
  | '%' :: h1 :: h2 :: t =>
    match hexVal h1, hexVal h2 with
    | some a, some b => Char.ofNat (16 * a + b) :: decodePct t
    | _, _ => '%' :: decodePct (h1 :: h2 :: t)
  | c :: t => c :: decodePct t

/-- Percent-encoding of one userinfo character: the characters that matter
for credential round-tripping (`%`, `@`, `:`, `/`) are escaped, everything
else is kept. -/
def encodeUserinfoChar (c : Char) : List Char :=
  if c == '%' then '%' :: '2' :: '5' :: []
  else if c == '@' then '%' :: '4' :: '0' :: []
  else if c == ':' then '%' :: '3' :: 'A' :: []
  else if c == '/' then '%' :: '2' :: 'F' :: []
  else c :: []

/-- Percent-encoding of a userinfo string. -/
def encodeUserinfo (s : String) : String :=
  String.mk ((s.data.map encodeUserinfoChar).flatten)

/-- Numeric value of a digit list (used for the URL parser's port range
check). -/
def portValue (l : List Char) : Nat :=
  l.foldl (fun n c => n * 10 + (c.toNat - 48)) 0

/-- Scan for the first `:`; it must be followed by `//`.  Returns the scheme
characters before it and the remainder after `://`.  On the inputs produced
by the source's normalization (which always yields a `scheme://`-form
string) this coincides with WHATWG scheme parsing. -/
def splitSchemeAux : List Char → Option (List Char × List Char)
  | [] => none
  | c :: rest =>
    if c == ':' then
      match rest with
      | '/' :: '/' :: r => some ([], r)
      | _ => none
    else
      match splitSchemeAux rest with
      | some (sch, r) => some (c :: sch, r)
      | none => none

/-- The scheme of a `scheme://`-form URL string, lower-cased (empty when the
string is not of that form). -/
def extractScheme (s : String) : String :=
  match splitSchemeAux s.data with
  | some (sch, _) => String.mk (sch.map Char.toLower)
  | none => ""

/-- Parse everything after the scheme: authority (with optional
`user:pass@` userinfo and optional `:port`) followed by a path.  Models the
WHATWG behaviour on the URLs reachable from the source's normalization:
empty host, non-numeric port and out-of-range port are parse errors. -/
def parseAfterScheme (sch rest : List Char) : Except String ParsedURL :=
  let authority := rest.takeWhile (fun c => !(c == '/'))
  let path := rest.dropWhile (fun c => !(c == '/'))
  let ui_hp :=
    match splitLastOn '@' authority with
    | some (ui, hp) => (ui, hp)
    | none => (([] : List Char), authority)
  let us_pw :=
    match splitFirstOn ':' ui_hp.1 with
    | some (us, pw) => (us, pw)
    | none => (ui_hp.1, ([] : List Char))
  let ho_po :=
    match splitLastOn ':' ui_hp.2 with
    | some (ho, po) => (ho, po)
    | none => (ui_hp.2, ([] : List Char))
  if ho_po.1.isEmpty then .error ("Invalid URL")
  else if !(ho_po.2.all Char.isDigit) then .error ("Invalid URL")
  else if 65535 < portValue ho_po.2 then .error ("Invalid URL")
  else
    .ok
      { protocol := String.mk (sch.map Char.toLower) ++ ":"
        username := String.mk (decodePct us_pw.1)
        password := String.mk (decodePct us_pw.2)
        hostname := String.mk (ho_po.1.map Char.toLower)
        port := String.mk ho_po.2
        path := if path.isEmpty then "/" else String.mk path }

/-- `new URL(s)` on the `scheme://`-form strings that the source's
normalization produces; returns `.error` where the WHATWG constructor
throws. -/
def parseURL (s : String) : Except String ParsedURL :=
  match splitSchemeAux s.data with
  | none => .error ("Invalid URL")
  | some (sch, rest) => parseAfterScheme sch rest

/-- The WHATWG `toString()` serialization of a parsed URL: credentials are
re-encoded and included exactly when some credential field is non-empty. -/
def serializeURL (u : ParsedURL) : String :=
  let creds :=
    if u.username == "" && u.password == "" then ""
    else
      encodeUserinfo u.username ++
        (if u.password == "" then "" else ":" ++ encodeUserinfo u.password) ++ "@"
  u.protocol ++ "//" ++ creds ++ u.hostname ++
    (if u.port == "" then "" else ":" ++ u.port) ++ u.path

/-- One step of the source's scheme test
`/^[a-zA-Z][a-zA-Z0-9+.-]*:\x2f\x2f/`: a run of scheme characters ended by
`://`. -/
def isSchemeChar (c : Char) : Bool :=
  c.isAlpha || c.isDigit || c == '+' || c == '.' || c == '-'

/-- Check the tail of the scheme regex after the leading letter. -/
def schemeRestOk : List Char → Bool
  | [] => false
  | c :: rest =>
    if c == ':' then
      match rest with
      | '/' :: '/' :: _ => true
      | _ => false
    else isSchemeChar c && schemeRestOk rest

/-- The source's test whether the url field already carries an explicit
`scheme://` prefix (line 39 of `Axios.ts`). -/
def hasExplicitScheme (s : String) : Bool :=
  match s.data with
  | [] => false
  | c :: rest => c.isAlpha && schemeRestOk rest

/-- Lines 35–41 of `Axios.ts`: coerce the url field to a string
(`String(url || '')`) and prepend `https://` when no explicit scheme is
present. -/
def normalizedUrlInput (a : AccountProxy) : String :=
  let url0 := a.url.getD ""
  if hasExplicitScheme url0 then url0 else ("https://") ++ url0

/-- The WHATWG `port` setter as invoked on line 47
(`parsed.port = String(port)`): a numeric value in range is stringified and
assigned, an out-of-range value leaves the URL unchanged. -/
def setPortFromNumber (u : ParsedURL) (p : Nat) : ParsedURL :=
  if p ≤ 65535 then { u with port := toString p } else u

/-- Line 47 of `Axios.ts`: `if (port) parsed.port = String(port)` — the JS
truthiness test skips both an absent and a zero port. -/
def applyPort (a : AccountProxy) (u : ParsedURL) : ParsedURL :=
  match a.port with
  | some p => if p != 0 then setPortFromNumber u p else u
  | none => u

/-- Lines 50–53 of `Axios.ts`: inject credentials through the URL's
structured fields when the username is JS-truthy (non-empty); the password
defaults to the empty string (`password || ''`). -/
def injectCreds (a : AccountProxy) (u : ParsedURL) : ParsedURL :=
  match a.username with
  | some un =>
    if un != "" then { u with username := un, password := a.password.getD "" }
    else u
  | none => u

/-- Lines 32–53 of `Axios.ts`: the full URL-normalization pipeline of
`getAgentForProxy` (string coercion, default scheme, parse, explicit-port
override, credential injection). -/
def normalizeProxyUrl (a : AccountProxy) : Except String ParsedURL :=
  match parseURL (normalizedUrlInput a) with
  | .error e => .error e
  | .ok parsed => .ok (injectCreds a (applyPort a parsed))

/-- The three agent constructors imported at the top of `Axios.ts`. -/
inductive AgentKind where
  | httpProxy
  | httpsProxy
  | socksProxy
deriving DecidableEq

/-- An allocated agent: its constructor kind, the proxy URL passed to the
constructor, and an allocation identity (each `new ...Agent(...)` in the
source gets a fresh one, so instance identity is observable). -/
structure Agent where
  kind : AgentKind
  url : String
  id : Nat
deriving DecidableEq

/-- The `AgentPair` of `Axios.ts` line 7 (`httpAgent` forwards plain-HTTP
targets, `httpsAgent` tunnels HTTPS targets). -/
structure AgentPair where
  httpAgent : Agent
  httpsAgent : Agent
deriving DecidableEq

/-- Lines 31–82 of `Axios.ts` (`AxiosClient.getAgentForProxy`): normalize
the descriptor to a proxy URL, then branch on the scheme.  `fresh` is the
next free allocation identity; the `http:`/`https:` branches perform two
allocations, the `socks` branch one shared allocation. -/
def AxiosClient.getAgentForProxy (a : AccountProxy) (fresh : Nat) :
    Except String AgentPair :=
  match normalizeProxyUrl a with
  | .error e => .error e
  | .ok parsed =>
    let proxyUrl := serializeURL parsed
    if parsed.protocol == "http:" then
      .ok ⟨⟨AgentKind.httpProxy, proxyUrl, fresh⟩,
           ⟨AgentKind.httpsProxy, proxyUrl, fresh + 1⟩⟩
    else if parsed.protocol == "https:" then
      .ok ⟨⟨AgentKind.httpsProxy, proxyUrl, fresh⟩,
           ⟨AgentKind.httpsProxy, proxyUrl, fresh + 1⟩⟩
    else if listLeads (("socks").data) parsed.protocol.data then
      let sa : Agent := ⟨AgentKind.socksProxy, proxyUrl, fresh⟩
      .ok ⟨sa, sa⟩
    else
      .error (("Unsupported proxy protocol: ") ++ parsed.protocol)

/-- The observable configuration of one axios instance: whether
`defaults.proxy = false` was set, and which default agents are bound. -/
structure InstanceCfg where
  proxyDisabled : Bool
  httpAgent : Option Agent
  httpsAgent : Option Agent
deriving DecidableEq

/-- A fresh `axios.create()` instance with `defaults.proxy = false` and no
agents bound — the configuration built for every bypass request and as the
base of every `AxiosClient`. -/
def bypassInstance : InstanceCfg :=
  { proxyDisabled := true, httpAgent := none, httpsAgent := none }

/-- Lines 13–28 of `Axios.ts` (the `AxiosClient` constructor): always
disable axios's built-in proxy handling; when `account.url` is truthy and
`account.proxyAxios` is set, resolve and bind the agent pair (allocation
identities start at 0 for the freshly constructed client); a resolution
error propagates out of the constructor. -/
def AxiosClient.create (a : AccountProxy) : Except String InstanceCfg :=
  if jsTruthyStr a.url && a.proxyAxios then
    match AxiosClient.getAgentForProxy a 0 with
    | .ok agents =>
      .ok { proxyDisabled := true
            httpAgent := some agents.httpAgent
            httpsAgent := some agents.httpsAgent }
    | .error e => .error e
  else
    .ok bypassInstance

/-- The caught error object of `request` (line 94): an optional top-level
`code`, an optional nested `cause.code`, and an optional `message`. -/
structure ErrObj where
  code : Option String
  causeCode : Option String
  message : Option String
deriving DecidableEq

/-- Line 95 of `Axios.ts`: `e?.code || e?.cause?.code` under JS truthiness,
with absent fields read as the empty string. -/
def effectiveCode (e : ErrObj) : String :=
  let c := e.code.getD ""
  if c == "" then e.causeCode.getD "" else c

/-- Lines 96–100 of `Axios.ts`: the network-error classification. -/
def isNetErr (e : ErrObj) : Bool :=
  let code := effectiveCode e
  code == "ECONNREFUSED" || code == "ETIMEDOUT" ||
    code == "ECONNRESET" || code == "ENOTFOUND"

/-- Line 101 of `Axios.ts`: `String(e?.message || '')`. -/
def errMessage (e : ErrObj) : String :=
  e.message.getD ""

/-- Line 102 of `Axios.ts`: the case-insensitive proxy-trouble heuristic
`/proxy|tunnel|socks|agent|502|504/i.test(msg)`. -/
def looksLikeProxyIssue (msg : String) : Bool :=
  let m := (lowerStr msg).data
  containsSub (("proxy").data) m || containsSub (("tunnel").data) m ||
    containsSub (("socks").data) m || containsSub (("agent").data) m ||
    containsSub (("502").data) m || containsSub (("504").data) m

/-- An opaque axios request configuration, passed through unmodified. -/
structure RequestConfig where
  tag : Nat
deriving DecidableEq

/-- An opaque axios response. -/
structure Response where
  status : Nat
deriving DecidableEq

/-- The underlying transport collaborator: the outcome of
`instance.request(config)` as a function of the instance configuration, the
request configuration, and the attempt index within one `request` call
(0 = first attempt, 1 = the fallback retry), so that the two attempts may
resolve differently. -/
def Transport : Type :=
  InstanceCfg → RequestConfig → Nat → Except ErrObj Response

/-- Lines 84–112 of `Axios.ts` (`AxiosClient.request`): the bypass escape
hatch, the primary attempt on the owned instance, and the classified
single-shot fallback onto a fresh proxy-disabled instance. -/
def AxiosClient.request (t : Transport) (inst : InstanceCfg)
    (config : RequestConfig) (bypassProxy : Bool) : Except ErrObj Response :=
  if bypassProxy then
    t bypassInstance config 0
  else
    match t inst config 0 with
    | .ok r => .ok r
    | .error e =>
      if !bypassProxy && (isNetErr e || looksLikeProxyIssue (errMessage e)) then
        t bypassInstance config 1
      else
        .error e

/-- A fixed opaque request configuration for concrete instantiations. -/
def cfg0 : RequestConfig := ⟨0⟩

/-- A fixed opaque response for concrete transports. -/
def resp200 : Response := ⟨200⟩

/-- A connection-refused error object. -/
def errW1 : ErrObj := ⟨some ("ECONNREFUSED"), none, none⟩

/-- A transport whose first attempt is refused and whose retry succeeds. -/
def tW1 : Transport := fun _ _ n => if n == 0 then .error errW1 else .ok resp200

/-- Descriptor with an http proxy url and proxying enabled. -/
def aW2 : AccountProxy := ⟨some ("http://proxy.test"), none, none, none, true⟩

/-- Descriptor with a proxy url but proxying disabled. -/
def aW2b : AccountProxy := ⟨some ("http://proxy.test"), none, none, none, false⟩

/-- Descriptor with a bare IP (no scheme). -/
def aW3bare : AccountProxy := ⟨some ("151.145.36.194"), none, none, none, true⟩

/-- The URL `aW3bare` resolves to. -/
def parsedW3bare : ParsedURL :=
  ⟨"https:", "", "", "151.145.36.194", "", "/"⟩

/-- Descriptor with an explicit socks5 scheme. -/
def aW3scheme : AccountProxy := ⟨some ("socks5://proxy.test:1080"), none, none, none, true⟩

/-- The URL `aW3scheme` resolves to. -/
def parsedW3scheme : ParsedURL :=
  ⟨"socks5:", "", "", "proxy.test", "1080", "/"⟩

/-- Descriptor whose explicit port 3128 conflicts with the port embedded in
the URL. -/
def aW4 : AccountProxy := ⟨some ("http://proxy.test:8080"), some 3128, none, none, true⟩

/-- The URL `aW4` resolves to (explicit port wins). -/
def parsedW4 : ParsedURL :=
  ⟨"http:", "", "", "proxy.test", "3128", "/"⟩

/-- Descriptor with an explicit port of 0, which JS truthiness skips. -/
def aC4 : AccountProxy := ⟨some ("http://proxy.test:8080"), some 0, none, none, true⟩

/-- Descriptor with credentials containing reserved characters. -/
def aW5 : AccountProxy :=
  ⟨some ("https://proxy.test"), none, some ("a@b"), some ("p:q"), true⟩

/-- The URL `aW5` resolves to, also the credential round-trip sample. -/
def credSample : ParsedURL :=
  ⟨"https:", "a@b", "p:q", "proxy.test", "", "/"⟩

/-- Descriptor with a socks5 proxy url. -/
def aW6 : AccountProxy := ⟨some ("socks5://proxy.test:1080"), none, none, none, true⟩

/-- The URL `aW6` resolves to. -/
def parsedW6 : ParsedURL :=
  ⟨"socks5:", "", "", "proxy.test", "1080", "/"⟩

/-- The agent pair `aW6` resolves to: one shared SOCKS agent. -/
def pairW6 : AgentPair :=
  ⟨⟨AgentKind.socksProxy, "socks5://proxy.test:1080/", 0⟩,
   ⟨AgentKind.socksProxy, "socks5://proxy.test:1080/", 0⟩⟩

/-- Descriptor with an https proxy url. -/
def aC7 : AccountProxy := ⟨some ("https://proxy.test"), none, none, none, true⟩

/-- The URL `aC7` resolves to. -/
def parsedC7 : ParsedURL := ⟨"https:", "", "", "proxy.test", "", "/"⟩

/-- The agent pair `aC7` resolves to: two HTTPS-proxy agents with distinct
allocation identities. -/
def pairC7 : AgentPair :=
  ⟨⟨AgentKind.httpsProxy, "https://proxy.test/", 0⟩,
   ⟨AgentKind.httpsProxy, "https://proxy.test/", 1⟩⟩

/-- Descriptor with an http proxy url and explicit port. -/
def aW7 : AccountProxy := ⟨some ("http://proxy.test"), some 8080, none, none, true⟩

/-- The URL `aW7` resolves to. -/
def parsedW7 : ParsedURL := ⟨"http:", "", "", "proxy.test", "8080", "/"⟩

/-- The agent pair `aW7` resolves to: a plain-HTTP forward agent and a
distinct HTTPS/CONNECT tunnel agent. -/
def pairW7 : AgentPair :=
  ⟨⟨AgentKind.httpProxy, "http://proxy.test:8080/", 0⟩,
   ⟨AgentKind.httpsProxy, "http://proxy.test:8080/", 1⟩⟩

/-- Descriptor with an unsupported ftp scheme. -/
def aC8 : AccountProxy := ⟨some ("ftp://proxy.test"), none, none, none, true⟩

/-- The URL `aC8` resolves to before the scheme branch rejects it. -/
def parsedC8 : ParsedURL := ⟨"ftp:", "", "", "proxy.test", "", "/"⟩

/-- An error whose top-level code is unrecognized while a recognized code
sits in `cause.code`, and whose message matches no proxy pattern. -/
def errC10 : ErrObj := ⟨some ("EFOO"), some ("ECONNRESET"), some ("request failed")⟩

/-- A transport that fails with `errC10` on the first attempt and would
succeed on a retry. -/
def tC10 : Transport := fun _ _ n => if n == 0 then .error errC10 else .ok resp200

/-- An error with no top-level code and a recognized code in `cause.code`. -/
def errW10 : ErrObj := ⟨none, some ("ECONNREFUSED"), none⟩

/-- A transport that fails with `errW10` on the first attempt and succeeds
on a retry. -/
def tW10 : Transport := fun _ _ n => if n == 0 then .error errW10 else .ok resp200

theorem parseAfterScheme_protocol (sch rest : List Char) (u : ParsedURL)
    (h : parseAfterScheme sch rest = .ok u) :
    u.protocol = String.mk (sch.map Char.toLower) ++ ":" := by
  simp only [parseAfterScheme] at h
  split at h
  · exact absurd h (by simp)
  · split at h
    · exact absurd h (by simp)
    · split at h
      · exact absurd h (by simp)
      · injection h with h'
        subst h'
        rfl

theorem parseURL_protocol (s : String) (u : ParsedURL)
    (h : parseURL s = .ok u) :
    u.protocol = extractScheme s ++ ":" := by
  unfold parseURL at h
  unfold extractScheme
  split at h
  · exact absurd h (by simp)
  · rename_i sch rest heq
    rw [heq]
    exact parseAfterScheme_protocol sch rest u h

theorem splitSchemeAux_https (l : List Char) :
    splitSchemeAux ('h' :: 't' :: 't' :: 'p' :: 's' :: ':' :: '/' :: '/' :: l) =
      some (('h' :: 't' :: 't' :: 'p' :: 's' :: []), l) := rfl

theorem extractScheme_https (s : String) :
    extractScheme (("https://") ++ s) = "https" := by
  unfold extractScheme
  rw [String.data_append]
  have hd : ("https://").data = 'h' :: 't' :: 't' :: 'p' :: 's' :: ':' :: '/' :: '/' :: [] := rfl
  rw [hd]
  rw [show ('h' :: 't' :: 't' :: 'p' :: 's' :: ':' :: '/' :: '/' :: []) ++ s.data =
    'h' :: 't' :: 't' :: 'p' :: 's' :: ':' :: '/' :: '/' :: s.data from rfl]
  rw [splitSchemeAux_https]
  rfl

theorem injectCreds_protocol (a : AccountProxy) (u : ParsedURL) :
    (injectCreds a u).protocol = u.protocol := by
  unfold injectCreds
  split
  · split <;> rfl
  · rfl

theorem applyPort_protocol (a : AccountProxy) (u : ParsedURL) :
    (applyPort a u).protocol = u.protocol := by
  unfold applyPort setPortFromNumber
  split
  · split
    · split <;> rfl
    · rfl
  · rfl

theorem normalizeProxyUrl_protocol (a : AccountProxy) (parsed : ParsedURL)
    (h : normalizeProxyUrl a = .ok parsed) :
    parsed.protocol = extractScheme (normalizedUrlInput a) ++ ":" := by
  unfold normalizeProxyUrl at h
  split at h
  · exact absurd h (by simp)
  · rename_i p0 heq
    injection h with h'
    subst h'
    rw [injectCreds_protocol, applyPort_protocol]
    exact parseURL_protocol _ p0 heq

theorem injectCreds_port (a : AccountProxy) (u : ParsedURL) :
    (injectCreds a u).port = u.port := by
  unfold injectCreds
  split
  · split <;> rfl
  · rfl

theorem applyPort_creds (a : AccountProxy) (u : ParsedURL) :
    (applyPort a u).username = u.username ∧ (applyPort a u).password = u.password := by
  unfold applyPort setPortFromNumber
  split
  · split
    · split <;> exact ⟨rfl, rfl⟩
    · exact ⟨rfl, rfl⟩
  · exact ⟨rfl, rfl⟩

theorem applyPort_port_explicit (a : AccountProxy) (u : ParsedURL) (p : Nat)
    (hp : a.port = some p) (h0 : p ≠ 0) (h65 : p ≤ 65535) :
    (applyPort a u).port = toString p := by
  unfold applyPort setPortFromNumber
  rw [hp]
  simp [h0, h65]

/-- C1: for a non-bypass request that fails, an error classified as
network-related (recognized code) or proxy-like (message heuristic) causes
exactly one retry of the identical configuration on the fresh proxy-disabled
instance, whose outcome — whatever it is — is returned as-is; an error that
matches neither classification propagates unchanged with no retry. -/
theorem request_fallback_spec (t : Transport) (inst : InstanceCfg)
    (config : RequestConfig) (e : ErrObj)
    (h : t inst config 0 = .error e) :
    ((isNetErr e || looksLikeProxyIssue (errMessage e)) = true →
      AxiosClient.request t inst config false = t bypassInstance config 1) ∧
    ((isNetErr e || looksLikeProxyIssue (errMessage e)) = false →
      AxiosClient.request t inst config false = .error e) := by
  unfold AxiosClient.request
  rw [h]
  constructor
  · intro hc
    simp [hc]
  · intro hc
    simp [hc]

/-- Closed instantiation of `request_fallback_spec`: a transport refused
with `ECONNREFUSED` on the first attempt is retried on the bypass instance
and the retry's outcome is returned. -/
theorem request_fallback_spec_witness :
    AxiosClient.request tW1 bypassInstance cfg0 false = tW1 bypassInstance cfg0 1 :=
  (request_fallback_spec tW1 bypassInstance cfg0 errW1 rfl).1 (by decide)

/-- C2: construction always sets `defaults.proxy = false`, and binds the
agent pair resolved by `getAgentForProxy` as the instance's default agents
exactly when the descriptor's url is a non-empty string and `proxyAxios` is
set; otherwise the instance has no agents bound. -/
theorem create_spec (a : AccountProxy) :
    (∀ inst, AxiosClient.create a = .ok inst → inst.proxyDisabled = true) ∧
    ((jsTruthyStr a.url && a.proxyAxios) = true →
      AxiosClient.create a =
        (AxiosClient.getAgentForProxy a 0).map
          (fun p => ⟨true, some p.httpAgent, some p.httpsAgent⟩)) ∧
    ((jsTruthyStr a.url && a.proxyAxios) = false →
      AxiosClient.create a = .ok ⟨true, none, none⟩) := by
  refine ⟨?_, ?_, ?_⟩
  · intro inst h
    unfold AxiosClient.create at h
    split at h
    · cases hg : AxiosClient.getAgentForProxy a 0 with
      | ok p => rw [hg] at h; injection h with h'; subst h'; rfl
      | error e => rw [hg] at h; exact absurd h (by simp)
    · injection h with h'
      subst h'
      rfl
  · intro hc
    unfold AxiosClient.create
    rw [if_pos hc]
    cases hg : AxiosClient.getAgentForProxy a 0 <;> simp [hg, Except.map]
  · intro hc
    unfold AxiosClient.create
    rw [if_neg (by simp [hc])]
    rfl

/-- Closed instantiation of `create_spec`: with a proxy url and the flag
set, construction binds exactly the resolved agents; with the flag cleared,
it binds none. -/
theorem create_spec_witness :
    AxiosClient.create aW2 =
      (AxiosClient.getAgentForProxy aW2 0).map
        (fun p => ⟨true, some p.httpAgent, some p.httpsAgent⟩) ∧
    AxiosClient.create aW2b = .ok ⟨true, none, none⟩ :=
  ⟨(create_spec aW2).2.1 (by decide), (create_spec aW2b).2.2 (by decide)⟩

/-- C3: when the descriptor's url field carries no `scheme://` prefix the
resolution pipeline prepends `https://`, so a successfully resolved URL has
scheme `https:`; when an explicit scheme is present it is preserved (only
lower-cased, as the WHATWG parser does) rather than overwritten. -/
theorem scheme_normalization_spec (a : AccountProxy) (parsed : ParsedURL)
    (h : normalizeProxyUrl a = .ok parsed) :
    (hasExplicitScheme (a.url.getD "") = false → parsed.protocol = "https:") ∧
    (hasExplicitScheme (a.url.getD "") = true →
      parsed.protocol = extractScheme (a.url.getD "") ++ ":") := by
  have hp := normalizeProxyUrl_protocol a parsed h
  constructor
  · intro hs
    rw [hp]
    unfold normalizedUrlInput
    rw [if_neg (by simp [hs])]
    rw [extractScheme_https]
    rfl
  · intro hs
    rw [hp]
    unfold normalizedUrlInput
    rw [if_pos hs]

/-- Closed instantiation of `scheme_normalization_spec`: a bare IP resolves
with scheme `https:`; an explicit `socks5://` url keeps scheme `socks5:`. -/
theorem scheme_normalization_spec_witness :
    parsedW3bare.protocol = "https:" ∧
    parsedW3scheme.protocol = extractScheme ((aW3scheme.url).getD "") ++ ":" :=
  ⟨(scheme_normalization_spec aW3bare parsedW3bare rfl).1 (by decide),
   (scheme_normalization_spec aW3scheme parsedW3scheme rfl).2 (by decide)⟩

/-- C4 counterexample: descriptor `aC4` supplies the explicit port 0 next to
a URL embedding port 8080, yet the resolved URL keeps port `8080` — the
JS-truthiness guard `if (port)` skips a zero port, so the explicit port does
not always win. -/
theorem port_override_cex :
    aC4.port = some 0 ∧
    normalizeProxyUrl aC4 = .ok ⟨"http:", "", "", "proxy.test", "8080", "/"⟩ ∧
    (("8080" : String) ≠ toString 0) := by
  refine ⟨rfl, by rfl, by decide⟩

/-- C4 amended: for every descriptor supplying an explicit nonzero,
in-range port separately from the URL, the resolved URL's port is that port
stringified, overriding any port embedded in the URL (a zero port is
JS-falsy and skipped; an out-of-range port is refused by the URL port
setter). -/
theorem port_override_amended (a : AccountProxy) (p : Nat) (parsed : ParsedURL)
    (hp : a.port = some p) (h0 : p ≠ 0) (h65 : p ≤ 65535)
    (h : normalizeProxyUrl a = .ok parsed) :
    parsed.port = toString p := by
  unfold normalizeProxyUrl at h
  split at h
  · exact absurd h (by simp)
  · rename_i p0 heq
    injection h with h'
    subst h'
    rw [injectCreds_port]
    exact applyPort_port_explicit a p0 p hp h0 h65

/-- Closed instantiation of `port_override_amended`: explicit port 3128
overrides the URL-embedded port 8080. -/
theorem port_override_amended_witness :
    parsedW4.port = toString 3128 :=
  port_override_amended aW4 3128 parsedW4 rfl (by decide) (by decide) rfl

/-- C5: a JS-truthy (non-empty) username is injected together with the
password (defaulting to the empty string) through the URL's structured
credential fields; an absent or empty username leaves the parsed URL's
credential fields untouched; and credentials with reserved characters
round-trip intact through serialization and re-parsing. -/
theorem credential_injection_spec (a : AccountProxy) (u : ParsedURL) :
    (∀ un, a.username = some un → un ≠ "" →
      (∀ parsed, normalizeProxyUrl a = .ok parsed →
        parsed.username = un ∧ parsed.password = a.password.getD "")) ∧
    ((a.username.getD "") = "" → injectCreds a u = u) ∧
    parseURL (serializeURL credSample) = .ok credSample := by
  refine ⟨?_, ?_, by rfl⟩
  · intro un hun hne parsed h
    unfold normalizeProxyUrl at h
    split at h
    · exact absurd h (by simp)
    · rename_i p0 heq
      injection h with h'
      subst h'
      unfold injectCreds
      rw [hun]
      simp [hne]
  · intro he
    unfold injectCreds
    cases hu : a.username with
    | none => rfl
    | some un =>
      rw [hu] at he
      simp only [Option.getD] at he
      subst he
      simp

/-- Closed instantiation of `credential_injection_spec`: the descriptor with
username `a@b` and password `p:q` resolves to a URL carrying exactly those
credentials, and the round-trip sample re-parses to itself. -/
theorem credential_injection_spec_witness :
    (credSample.username = "a@b" ∧ credSample.password = (aW5.password).getD "") ∧
    parseURL (serializeURL credSample) = .ok credSample :=
  ⟨(credential_injection_spec aW5 credSample).1 ("a@b") rfl (by decide) credSample rfl,
   (credential_injection_spec aW5 credSample).2.2⟩

/-- C6: whenever the resolved proxy URL's scheme starts with `socks`, the
returned pair's forward and tunnel agents are one and the same allocated
SOCKS agent instance. -/
theorem socks_single_agent_spec (a : AccountProxy) (fresh : Nat)
    (parsed : ParsedURL) (pair : AgentPair)
    (hn : normalizeProxyUrl a = .ok parsed)
    (hs : listLeads (("socks").data) parsed.protocol.data = true)
    (hg : AxiosClient.getAgentForProxy a fresh = .ok pair) :
    pair.httpAgent = pair.httpsAgent ∧
    pair.httpAgent.kind = AgentKind.socksProxy := by
  unfold AxiosClient.getAgentForProxy at hg
  rw [hn] at hg
  simp only [] at hg
  by_cases h1 : parsed.protocol = "http:"
  · rw [h1] at hs
    exact absurd hs (by decide)
  · by_cases h2 : parsed.protocol = "https:"
    · rw [h2] at hs
      exact absurd hs (by decide)
    · rw [if_neg (by simp [h1]), if_neg (by simp [h2]), if_pos hs] at hg
      injection hg with h'
      subst h'
      exact ⟨rfl, rfl⟩

/-- Closed instantiation of `socks_single_agent_spec` at a `socks5://`
descriptor. -/
theorem socks_single_agent_spec_witness :
    pairW6.httpAgent = pairW6.httpsAgent ∧
    pairW6.httpAgent.kind = AgentKind.socksProxy :=
  socks_single_agent_spec aW6 0 parsedW6 pairW6 rfl (by decide) rfl

/-- C7 counterexample: for the https-proxy descriptor `aC7` the source runs
`new HttpsProxyAgent(proxyUrl)` twice (lines 71–72), so forward and tunnel
agents are two distinct allocations — not the identical instance the claim
asserts. -/
theorem https_agents_cex :
    AxiosClient.getAgentForProxy aC7 0 = .ok pairC7 ∧
    pairC7.httpAgent ≠ pairC7.httpsAgent ∧
    pairC7.httpAgent.kind = AgentKind.httpsProxy ∧
    pairC7.httpsAgent.kind = AgentKind.httpsProxy := by
  refine ⟨by rfl, by decide, rfl, rfl⟩

/-- C7 amended: for scheme `https:` both agents are HTTPS-proxy agents
built from the same serialized proxy URL, but they are two distinct
instances (two separate constructions); for scheme `http:` the forward
agent is a plain-HTTP-proxy agent and the tunnel agent a distinct
HTTPS-via-CONNECT agent over the same URL. -/
theorem agent_kind_spec (a : AccountProxy) (fresh : Nat)
    (parsed : ParsedURL) (pair : AgentPair)
    (hn : normalizeProxyUrl a = .ok parsed)
    (hg : AxiosClient.getAgentForProxy a fresh = .ok pair) :
    (parsed.protocol = "https:" →
      pair.httpAgent.kind = AgentKind.httpsProxy ∧
      pair.httpsAgent.kind = AgentKind.httpsProxy ∧
      pair.httpAgent.url = pair.httpsAgent.url ∧
      pair.httpAgent ≠ pair.httpsAgent) ∧
    (parsed.protocol = "http:" →
      pair.httpAgent.kind = AgentKind.httpProxy ∧
      pair.httpsAgent.kind = AgentKind.httpsProxy ∧
      pair.httpAgent.url = pair.httpsAgent.url ∧
      pair.httpAgent ≠ pair.httpsAgent) := by
  unfold AxiosClient.getAgentForProxy at hg
  rw [hn] at hg
  simp only [] at hg
  constructor
  · intro hp
    rw [if_neg (by simp [hp]), if_pos (by simp [hp])] at hg
    injection hg with h'
    subst h'
    refine ⟨rfl, rfl, rfl, ?_⟩
    intro hcontra
    have : fresh = fresh + 1 := congrArg Agent.id hcontra
    omega
  · intro hp
    rw [if_pos (by simp [hp])] at hg
    injection hg with h'
    subst h'
    refine ⟨rfl, rfl, rfl, ?_⟩
    intro hcontra
    have : fresh = fresh + 1 := congrArg Agent.id hcontra
    omega

/-- Closed instantiation of `agent_kind_spec` on both branches: the
https-proxy pair and the http-proxy pair, each with matching kinds, shared
URL and distinct instances. -/
theorem agent_kind_spec_witness :
    (pairC7.httpAgent.kind = AgentKind.httpsProxy ∧
      pairC7.httpsAgent.kind = AgentKind.httpsProxy ∧
      pairC7.httpAgent.url = pairC7.httpsAgent.url ∧
      pairC7.httpAgent ≠ pairC7.httpsAgent) ∧
    (pairW7.httpAgent.kind = AgentKind.httpProxy ∧
      pairW7.httpsAgent.kind = AgentKind.httpsProxy ∧
      pairW7.httpAgent.url = pairW7.httpsAgent.url ∧
      pairW7.httpAgent ≠ pairW7.httpsAgent) :=
  ⟨(agent_kind_spec aC7 0 parsedC7 pairC7 rfl rfl).1 rfl,
   (agent_kind_spec aW7 0 parsedW7 pairW7 rfl rfl).2 rfl⟩

/-- C8: a resolved scheme outside http/https/socks* makes `getAgentForProxy`
fail with an unsupported-protocol error that names the offending scheme, and
when construction actually resolves agents (truthy url and `proxyAxios`
set), that error propagates out of the constructor — construction does not
degrade to a proxy-less client. -/
theorem unsupported_protocol_spec (a : AccountProxy) (fresh : Nat)
    (parsed : ParsedURL)
    (hn : normalizeProxyUrl a = .ok parsed)
    (h1 : parsed.protocol ≠ "http:")
    (h2 : parsed.protocol ≠ "https:")
    (h3 : listLeads (("socks").data) parsed.protocol.data = false) :
    AxiosClient.getAgentForProxy a fresh =
      .error (("Unsupported proxy protocol: ") ++ parsed.protocol) ∧
    ((jsTruthyStr a.url && a.proxyAxios) = true →
      AxiosClient.create a =
        .error (("Unsupported proxy protocol: ") ++ parsed.protocol)) := by
  have hmain : ∀ n : Nat, AxiosClient.getAgentForProxy a n =
      .error (("Unsupported proxy protocol: ") ++ parsed.protocol) := by
    intro n
    unfold AxiosClient.getAgentForProxy
    rw [hn]
    simp only []
    rw [if_neg (by simp [h1]), if_neg (by simp [h2]), if_neg (by simp [h3])]
  refine ⟨hmain fresh, ?_⟩
  intro hc
  unfold AxiosClient.create
  rw [if_pos hc, hmain 0]

/-- Closed instantiation of `unsupported_protocol_spec`: an `ftp://` proxy
url is rejected at construction with an error naming `ftp:`. -/
theorem unsupported_protocol_spec_witness :
    AxiosClient.create aC8 =
      .error (("Unsupported proxy protocol: ") ++ parsedC8.protocol) :=
  (unsupported_protocol_spec aC8 0 parsedC8 rfl (by decide) (by decide)
    (by decide)).2 (by decide)

/-- C9: a request with `bypassProxy = true` is exactly one transport call on
a fresh instance with proxy handling disabled and no agents bound; the
owned instance (and hence any agents configured at construction) is never
consulted, and no classification or fallback runs on this path. -/
theorem bypass_request_spec (t : Transport) (inst inst2 : InstanceCfg)
    (config : RequestConfig) :
    AxiosClient.request t inst config true = t bypassInstance config 0 ∧
    AxiosClient.request t inst config true =
      AxiosClient.request t inst2 config true ∧
    bypassInstance.proxyDisabled = true ∧
    bypassInstance.httpAgent = none ∧
    bypassInstance.httpsAgent = none :=
  ⟨rfl, rfl, rfl, rfl, rfl⟩

/-- C10 counterexample: `errC10` carries the recognized code `ECONNRESET`
nested under `cause.code`, but its JS-truthy top-level code `EFOO` masks it
(`e?.code || e?.cause?.code`), so the error is not classified as
network-related and the request propagates it with no fallback retry — even
though the retry would have succeeded. -/
theorem nested_code_cex :
    errC10.causeCode = some ("ECONNRESET") ∧
    isNetErr errC10 = false ∧
    looksLikeProxyIssue (errMessage errC10) = false ∧
    AxiosClient.request tC10 bypassInstance cfg0 false = .error errC10 ∧
    tC10 bypassInstance cfg0 1 = .ok resp200 := by
  refine ⟨rfl, by decide, by decide, by rfl, rfl⟩

/-- C10 amended: the classified code is the JS-truthy coalescing of the
top-level `code` and the nested `cause.code` — the nested location is
consulted (and then also triggers the fallback retry) exactly when the
top-level code is absent or empty; a non-empty top-level code is used even
when unrecognized, masking any recognized nested code. -/
theorem error_code_classification_amended (e : ErrObj) (t : Transport)
    (inst : InstanceCfg) (config : RequestConfig) :
    ((e.code.getD "") ≠ "" → effectiveCode e = e.code.getD "") ∧
    ((e.code.getD "") = "" → effectiveCode e = e.causeCode.getD "") ∧
    (isNetErr e = true ↔
      (effectiveCode e = "ECONNREFUSED" ∨ effectiveCode e = "ETIMEDOUT" ∨
        effectiveCode e = "ECONNRESET" ∨ effectiveCode e = "ENOTFOUND")) ∧
    (t inst config 0 = .error e → isNetErr e = true →
      AxiosClient.request t inst config false = t bypassInstance config 1) := by
  refine ⟨?_, ?_, ?_, ?_⟩
  · intro hne
    unfold effectiveCode
    rw [if_neg (by simpa using hne)]
  · intro heq
    unfold effectiveCode
    rw [if_pos (by simpa using heq)]
  · unfold isNetErr
    simp only [Bool.or_eq_true, beq_iff_eq]
    tauto
  · intro h hnet
    unfold AxiosClient.request
    rw [h]
    simp [hnet]

/-- Closed instantiation of `error_code_classification_amended`: an error
with no top-level code and `cause.code = ECONNREFUSED` is classified as
network-related and the request falls back onto the bypass instance. -/
theorem error_code_classification_amended_witness :
    AxiosClient.request tW10 bypassInstance cfg0 false =
      tW10 bypassInstance cfg0 1 :=
  (error_code_classification_amended errW10 tW10 bypassInstance cfg0).2.2.2
    rfl (by decide)
